import Mathlib

/-!
Shallow embedding of the single-file Rust CRUD service (src/main.rs) and
verification of the specification claims about it.

The program is a blocking TCP server that reads one buffer per connection,
classifies the raw request text by string-prefix matching, runs one of five
CRUD handlers against a relational store, and writes back a status line plus
body.  The store and the JSON (de)serialization library are external
collaborators; they are modelled by an explicit environment record (`Env`)
whose fields stand for the outcomes of `Client::connect`, `execute`,
`query_one`, `query`, and `serde_json::from_str`.

Rust `unwrap()` on an `Err` panics and, since nothing catches the unwind,
aborts the whole process; a handler panic is therefore modelled by `none` in
the handler result type `Option (String × String)`.
-/

/-- The User record from src/main.rs: optional id, name, email. -/
structure User where
  id : Option Int
  name : String
  email : String
deriving Repr, DecidableEq

/-- A parameter value passed to a parameterized SQL statement
(the Rust code passes `&str` and `&i32` parameters). -/
inductive SqlValue where
  | s (v : String)
  | i (v : Int)
deriving Repr, DecidableEq

/-- Status-line constant `OK_RESPONSE` from src/main.rs. -/
def OK_RESPONSE : String := "HTTP/1.1 200 OK\r\nContent-Type: application/json\r\n\r\n"

/-- Status-line constant `NOT_FOUND` from src/main.rs. -/
def NOT_FOUND : String := "HTTP/1.1 404 NOT FOUND\r\n\r\n"

/-- Status-line constant `INTERNAL_ERROR` from src/main.rs. -/
def INTERNAL_ERROR : String := "HTTP/1.1 500 INTERNAL ERROR\r\n\r\n"

/-- Rust `str::split("/")`: split a character list at every `'/'`;
adjacent separators give empty pieces and the result is never empty. -/
def splitSlash : List Char → List (List Char)
  | [] => [[]]
  | '/' :: t => [] :: splitSlash t
  | c :: t =>
    match splitSlash t with
    | [] => [[c]]
    | p :: ps => (c :: p) :: ps

/-- Rust `str::split_whitespace().next().unwrap_or_default()`: skip leading
whitespace, then take the maximal run of non-whitespace characters. -/
def firstWordL (l : List Char) : List Char :=
  (l.dropWhile Char.isWhitespace).takeWhile (fun c => !c.isWhitespace)

/-- Embedding of `get_id` (src/main.rs line 189): third `/`-separated piece
of the request, first whitespace-delimited word of it, empty on failure. -/
def get_id (request : String) : String :=
  ⟨firstWordL ((splitSlash request.data).getD 2 [])⟩

/-- Decimal value of a digit list (accumulator fold, as in integer parsing). -/
def digitsToNat (l : List Char) : Nat :=
  l.foldl (fun a c => a * 10 + (c.toNat - 48)) 0

/-- Digit-run part of Rust `str::parse::<i32>`: nonempty all-digit string,
value within the i32 range, otherwise an error. -/
def parseI32core (sign : Int) (digits : List Char) : Option Int :=
  if digits = [] then none
  else if digits.all Char.isDigit then
    let v : Int := sign * (digitsToNat digits : Int)
    if -2147483648 ≤ v ∧ v ≤ 2147483647 then some v else none
  else none

/-- Embedding of Rust `str::parse::<i32>`: optional sign followed by decimal
digits, no surrounding whitespace, range-checked. -/
def parseI32 (s : String) : Option Int :=
  match s.data with
  | '+' :: rest => parseI32core 1 rest
  | '-' :: rest => parseI32core (-1) rest
  | ds => parseI32core 1 ds

/-- Rust `str::split("\r\n\r\n")` on the raw request: split at every
non-overlapping occurrence of the four-character blank-line separator. -/
def splitBlank : List Char → List (List Char)
  | '\r' :: '\n' :: '\r' :: '\n' :: t => [] :: splitBlank t
  | c :: t =>
    match splitBlank t with
    | [] => [[c]]
    | p :: ps => (c :: p) :: ps
  | [] => [[]]

/-- Embedding of the body extraction inside `get_user_request_body`
(src/main.rs line 201): `request.split("\r\n\r\n").last().unwrap_or_default()`. -/
def request_body (request : String) : String :=
  ⟨(splitBlank request.data).getLastD []⟩

/-- JSON string escaping for one character, modelling the escapes
`serde_json` emits for the characters that occur in this development. -/
def jsonEscapeChar (c : Char) : String :=
  if c = '"' then "\\\""
  else if c = '\\' then "\\\\"
  else if c = '\n' then "\\n"
  else if c = '\r' then "\\r"
  else if c = '\t' then "\\t"
  else String.singleton c

/-- JSON string literal for a Lean string (model of `serde_json` output). -/
def jsonString (s : String) : String :=
  "\"" ++ String.join (s.data.map jsonEscapeChar) ++ "\""

/-- JSON rendering of the optional id field (`null` when absent). -/
def optIdToJson : Option Int → String
  | some i => toString i
  | none => "null"

/-- Model of `serde_json::to_string(&user)`: fields in declaration order
id, name, email. -/
def userToJson (u : User) : String :=
  "\x7b\"id\":" ++ optIdToJson u.id ++ ",\"name\":" ++ jsonString u.name ++
    ",\"email\":" ++ jsonString u.email ++ "\x7d"

/-- Model of `serde_json::to_string(&users)` for a vector of users. -/
def usersToJson (l : List User) : String :=
  "[" ++ String.intercalate "," (l.map userToJson) ++ "]"

/-- The parameterized insert statement issued by `handle_post_request`
(src/main.rs lines 84-85): only name and email are passed, never the id. -/
def insertStmt (u : User) : String × List SqlValue :=
  ("INSERT INTO users (name, email) VALUES ($1, $2)", [SqlValue.s u.name, SqlValue.s u.email])

/-- The parameterized update statement issued by `handle_put_request`
(src/main.rs lines 145-146). -/
def updateStmt (u : User) (id : Int) : String × List SqlValue :=
  ("UPDATE users SET name = $1, email = $2 WHERE id = $3",
    [SqlValue.s u.name, SqlValue.s u.email, SqlValue.i id])

/-- The parameterized delete statement issued by `handle_delete_request`
(src/main.rs line 160). -/
def deleteStmt (id : Int) : String × List SqlValue :=
  ("DELETE FROM users WHERE id = $1", [SqlValue.i id])

/-- Environment of external collaborators for one request: whether
`Client::connect` succeeds, the outcome of `execute` on a given statement
(`some` row count or `none` for a statement error), the outcome of
`query_one` (`some` row exactly when exactly one row matches), the outcome
of the all-rows `query`, and the outcome of `serde_json::from_str::<User>`
on a given body text. -/
structure Env where
  connect : Bool
  execute : String × List SqlValue → Option Nat
  queryOne : Int → Option User
  queryAll : Option (List User)
  parseBody : String → Option User

/-- Embedding of `handle_post_request` (src/main.rs lines 79-93).
`none` models the `unwrap()` panic when `execute` fails. -/
def handle_post_request (request : String) (env : Env) : Option (String × String) :=
  match env.parseBody (request_body request), env.connect with
  | some user, true =>
    match env.execute (insertStmt user) with
    | some _ => some (OK_RESPONSE, "User created")
    | none => none
  | _, _ => some (INTERNAL_ERROR, "Internal error")

/-- Embedding of `handle_get_request` (src/main.rs lines 96-113). -/
def handle_get_request (request : String) (env : Env) : Option (String × String) :=
  match parseI32 (get_id request), env.connect with
  | some id, true =>
    match env.queryOne id with
    | some row => some (OK_RESPONSE, userToJson row)
    | none => some (NOT_FOUND, "User not found")
  | _, _ => some (INTERNAL_ERROR, "Internal error")

/-- Embedding of `handle_get_all_request` (src/main.rs lines 116-133).
`none` models the `unwrap()` panic when the query fails. -/
def handle_get_all_request (_request : String) (env : Env) : Option (String × String) :=
  match env.connect with
  | true =>
    match env.queryAll with
    | some rows => some (OK_RESPONSE, usersToJson rows)
    | none => none
  | false => some (INTERNAL_ERROR, "Internal error")

/-- Embedding of `handle_put_request` (src/main.rs lines 136-154).
`none` models the `unwrap()` panic when `execute` fails. -/
def handle_put_request (request : String) (env : Env) : Option (String × String) :=
  match parseI32 (get_id request), env.parseBody (request_body request), env.connect with
  | some id, some user, true =>
    match env.execute (updateStmt user id) with
    | some _ => some (OK_RESPONSE, "User updated")
    | none => none
  | _, _, _ => some (INTERNAL_ERROR, "Internal error")

/-- Embedding of `handle_delete_request` (src/main.rs lines 157-171).
`none` models the `unwrap()` panic when `execute` fails. -/
def handle_delete_request (request : String) (env : Env) : Option (String × String) :=
  match parseI32 (get_id request), env.connect with
  | some id, true =>
    match env.execute (deleteStmt id) with
    | none => none
    | some 0 => some (NOT_FOUND, "User not found")
    | some _ => some (OK_RESPONSE, "User deleted")
  | _, _ => some (INTERNAL_ERROR, "Internal error")

/-- Rust `str::starts_with`: the pattern characters are a prefix of the
string characters. -/
def rStartsWith (r p : String) : Bool := p.data.isPrefixOf r.data

/-- Embedding of the routing match in `handle_client` (src/main.rs lines
63-70): string-prefix tests in source order, fall-through to the 404 pair. -/
def handle_client_response (request : String) (env : Env) : Option (String × String) :=
  if rStartsWith request "POST /users" then handle_post_request request env
  else if rStartsWith request "GET /users/" then handle_get_request request env
  else if rStartsWith request "GET /users" then handle_get_all_request request env
  else if rStartsWith request "PUT /users/" then handle_put_request request env
  else if rStartsWith request "DELETE /users/" then handle_delete_request request env
  else some (NOT_FOUND, "404 not found")

/-- Outcome of `stream.read` on an accepted connection: `ok data` is a
successful read whose bytes decode to `data` (a zero-byte read gives
`ok ""`), `err` is a read error. -/
inductive ReadResult where
  | ok (data : String)
  | err
deriving Repr, DecidableEq

/-- Outcome of `stream.write_all` for the response. -/
inductive WriteResult where
  | ok
  | err
deriving Repr, DecidableEq

/-- Observable outcome of one `handle_client` call: no response written
(read failure, logged and abandoned), a response written, or a panic
(an `unwrap()` fired; the unwind aborts the process, so the server does
not continue). -/
inductive ClientOutcome where
  | noResponse
  | wrote (resp : String × String)
  | panicked
deriving Repr, DecidableEq

/-- Embedding of `handle_client` (src/main.rs lines 55-76): on a read error
nothing is written; otherwise the routed handler runs and the response is
written with `write_all(...).unwrap()`, whose failure panics. -/
def handle_client (rr : ReadResult) (wr : WriteResult) (env : Env) : ClientOutcome :=
  match rr with
  | .err => .noResponse
  | .ok data =>
    match handle_client_response data env with
    | none => .panicked
    | some resp =>
      match wr with
      | .ok => .wrote resp
      | .err => .panicked

/-- Route classification of the specification (one constructor per
recognized operation plus the unroutable case). -/
inductive Route where
  | create
  | readOne
  | readAll
  | update
  | delete
  | unknown
deriving Repr, DecidableEq

/-- Method of a raw request line: the characters before the first space. -/
def reqMethod (r : String) : String := ⟨r.data.takeWhile (· ≠ ' ')⟩

/-- Path of a raw request line: the second space-delimited token. -/
def reqPath (r : String) : String :=
  ⟨((r.data.dropWhile (· ≠ ' ')).drop 1).takeWhile (· ≠ ' ')⟩

/-- Route classification as the specification words it: match, in order,
method plus path-prefix rules, first match wins, otherwise unroutable. -/
def routeSpec (method path : String) : Route :=
  if method == "POST" && rStartsWith path "/users" then .create
  else if method == "GET" && rStartsWith path "/users/" then .readOne
  else if method == "GET" && rStartsWith path "/users" then .readAll
  else if method == "PUT" && rStartsWith path "/users/" then .update
  else if method == "DELETE" && rStartsWith path "/users/" then .delete
  else .unknown

/-- Whether the four-character blank-line separator occurs anywhere in a
character list (specification-side notion used to state the corrected
body-extraction claim). -/
def hasBlankSep : List Char → Bool
  | '\r' :: '\n' :: '\r' :: '\n' :: _ => true
  | _ :: t => hasBlankSep t
  | [] => false

/-- Sample user as deserialized from a body without an id field. -/
def userAda : User := ⟨none, "Ada", "ada@x.io"⟩

/-- Sample user as deserialized from a body carrying `"id":7`. -/
def userAda7 : User := ⟨some 7, "Ada", "ada@x.io"⟩

/-- Sample stored row with id 1. -/
def user1 : User := ⟨some 1, "Ada", "ada@x.io"⟩

/-- Sample JSON body without an id field. -/
def adaJson : String := "\x7b\"name\":\"Ada\",\"email\":\"ada@x.io\"\x7d"

/-- Sample JSON body that additionally carries an id field. -/
def adaJson7 : String := "\x7b\"id\":7,\"name\":\"Ada\",\"email\":\"ada@x.io\"\x7d"

/-- Concrete model of `serde_json::from_str::<User>` on the sample bodies:
both parse, the id field being kept in the record when present. -/
def parseBody0 : String → Option User := fun s =>
  if s = adaJson then some userAda
  else if s = adaJson7 then some userAda7
  else none

/-- Environment where every store call succeeds: one stored row with id 1,
deleting id 9 touches zero rows, every other statement touches one row. -/
def env0 : Env :=
  ⟨true,
   fun stmt => if stmt = deleteStmt 9 then some 0 else some 1,
   fun i => if i = 1 then some user1 else none,
   some [user1],
   parseBody0⟩

/-- Environment where the connection succeeds but every statement fails. -/
def envExecFail : Env := ⟨true, fun _ => none, fun _ => none, none, parseBody0⟩

/-- Environment where `Client::connect` fails. -/
def envDown : Env := ⟨false, fun _ => none, fun _ => none, none, parseBody0⟩

/-- Environment where every statement succeeds but touches zero rows. -/
def envZeroRows : Env := ⟨true, fun _ => some 0, fun _ => none, none, parseBody0⟩

/-- Sample create request whose body has no id field. -/
def reqPost1 : String := "POST /users HTTP/1.1\r\n\r\n" ++ adaJson

/-- Sample create request whose body carries an id field. -/
def reqPost2 : String := "POST /users HTTP/1.1\r\n\r\n" ++ adaJson7

/-- Sample update request for id 1. -/
def reqPut1 : String := "PUT /users/1 HTTP/1.1\r\n\r\n" ++ adaJson

/-- Claim C2: for a ReadOne request, an identifier that fails i32 parsing
yields INTERNAL_ERROR; with a parsed identifier and a connected store, a
`query_one` that does not return exactly one row yields NOT_FOUND, and
exactly one matching row yields OK with the serialized User. -/
theorem claim2_read_one (r : String) (env : Env) :
    (parseI32 (get_id r) = none →
      handle_get_request r env = some (INTERNAL_ERROR, "Internal error"))
    ∧ (∀ i : Int, parseI32 (get_id r) = some i → env.connect = true →
        (env.queryOne i = none →
          handle_get_request r env = some (NOT_FOUND, "User not found"))
        ∧ (∀ u : User, env.queryOne i = some u →
            handle_get_request r env = some (OK_RESPONSE, userToJson u))) := by
  refine ⟨fun h => ?_, fun i hi hc => ⟨fun hq => ?_, fun u hu => ?_⟩⟩
  · rcases hc : env.connect <;> simp [handle_get_request, h, hc]
  · simp [handle_get_request, hi, hc, hq]
  · simp [handle_get_request, hi, hc, hu]

/-- Claim C2 witness: concrete ReadOne requests exercising the three
branches against the all-success environment. -/
theorem claim2_read_one_witness :
    handle_get_request "GET /users/1 HTTP/1.1" env0 = some (OK_RESPONSE, userToJson user1)
    ∧ handle_get_request "GET /users/9 HTTP/1.1" env0 = some (NOT_FOUND, "User not found")
    ∧ handle_get_request "GET /users/x HTTP/1.1" env0 = some (INTERNAL_ERROR, "Internal error") :=
  ⟨((claim2_read_one "GET /users/1 HTTP/1.1" env0).2 1 (by decide) (by decide)).2 user1 (by decide),
   ((claim2_read_one "GET /users/9 HTTP/1.1" env0).2 9 (by decide) (by decide)).1 (by decide),
   (claim2_read_one "GET /users/x HTTP/1.1" env0).1 (by decide)⟩

/-- Claim C3 counterexample: with the body parsing and the connection
succeeding but the insert statement failing, `handle_post_request` panics
(models the `unwrap()` on `execute`), it does not return INTERNAL_ERROR as
the claim states. -/
theorem claim3_counterexample :
    envExecFail.parseBody (request_body reqPost1) = some userAda
    ∧ envExecFail.connect = true
    ∧ envExecFail.execute (insertStmt userAda) = none
    ∧ handle_post_request reqPost1 envExecFail = none
    ∧ (none : Option (String × String)) ≠ some (INTERNAL_ERROR, "Internal error") := by
  decide

/-- Claim C3 amended: a body parse failure or a store connect failure
yields INTERNAL_ERROR with a generic message; a store execute failure
panics the handler (no response at all); on success the handler yields OK
with the confirmation body, not the created record. -/
theorem claim3_create_errors (r : String) (env : Env) :
    (env.parseBody (request_body r) = none ∨ env.connect = false →
      handle_post_request r env = some (INTERNAL_ERROR, "Internal error"))
    ∧ (∀ u : User, env.parseBody (request_body r) = some u → env.connect = true →
        (env.execute (insertStmt u) = none → handle_post_request r env = none)
        ∧ (∀ n : Nat, env.execute (insertStmt u) = some n →
            handle_post_request r env = some (OK_RESPONSE, "User created"))) := by
  refine ⟨fun h => ?_, fun u hu hc => ⟨fun he => ?_, fun n hn => ?_⟩⟩
  · rcases h with h | h
    · rcases hc : env.connect <;> simp [handle_post_request, h, hc]
    · rcases hp : env.parseBody (request_body r) with _ | u <;>
        simp [handle_post_request, h, hp]
  · simp [handle_post_request, hu, hc, he]
  · simp [handle_post_request, hu, hc, hn]

/-- Claim C3 amended witness: the same create request against the store
that is down, the store that fails the statement, and the healthy store. -/
theorem claim3_create_errors_witness :
    handle_post_request reqPost1 envDown = some (INTERNAL_ERROR, "Internal error")
    ∧ handle_post_request reqPost1 envExecFail = none
    ∧ handle_post_request reqPost1 env0 = some (OK_RESPONSE, "User created") :=
  ⟨(claim3_create_errors reqPost1 envDown).1 (Or.inr (by decide)),
   ((claim3_create_errors reqPost1 envExecFail).2 userAda (by decide) (by decide)).1 (by decide),
   ((claim3_create_errors reqPost1 env0).2 userAda (by decide) (by decide)).2 1 (by decide)⟩

/-- Claim C4: for a Delete request with a parsed identifier, a successful
connect and a store-reported affected-row count, zero affected rows gives
NOT_FOUND and a nonzero count gives OK with the confirmation body. -/
theorem claim4_delete_rows (r : String) (env : Env) (i : Int) (n : Nat)
    (hi : parseI32 (get_id r) = some i) (hc : env.connect = true)
    (hn : env.execute (deleteStmt i) = some n) :
    handle_delete_request r env =
      some (if n = 0 then (NOT_FOUND, "User not found") else (OK_RESPONSE, "User deleted")) := by
  rcases n with _ | m <;> simp [handle_delete_request, hi, hc, hn]

/-- Claim C4 witness: deleting the never-created id 9 reports zero affected
rows and yields NOT_FOUND; deleting the existing id 1 yields OK. -/
theorem claim4_delete_rows_witness :
    handle_delete_request "DELETE /users/9 HTTP/1.1" env0 = some (NOT_FOUND, "User not found")
    ∧ handle_delete_request "DELETE /users/1 HTTP/1.1" env0 = some (OK_RESPONSE, "User deleted") := by
  constructor
  · simpa using claim4_delete_rows "DELETE /users/9 HTTP/1.1" env0 9 0 (by decide) (by decide) (by decide)
  · simpa using claim4_delete_rows "DELETE /users/1 HTTP/1.1" env0 1 1 (by decide) (by decide) (by decide)

/-- Claim C5 counterexample: identifier parse, body parse and connect all
succeed, yet the handler does not return OK — the update statement fails
and the `unwrap()` panics — refuting the claimed equivalence. -/
theorem claim5_counterexample :
    parseI32 (get_id reqPut1) = some 1
    ∧ envExecFail.parseBody (request_body reqPut1) = some userAda
    ∧ envExecFail.connect = true
    ∧ handle_put_request reqPut1 envExecFail = none
    ∧ handle_put_request reqPut1 envExecFail ≠ some (OK_RESPONSE, "User updated") := by
  decide

/-- Claim C5 amended: the Update handler returns OK exactly when identifier
parse, body parse, store connect and the update statement execution all
succeed (an update matching zero rows still reports OK); a parse or
connect failure yields INTERNAL_ERROR; a statement failure panics. -/
theorem claim5_update_ok (r : String) (env : Env) :
    (handle_put_request r env = some (OK_RESPONSE, "User updated") ↔
      ∃ (i : Int) (u : User) (n : Nat),
        parseI32 (get_id r) = some i ∧ env.parseBody (request_body r) = some u ∧
          env.connect = true ∧ env.execute (updateStmt u i) = some n)
    ∧ (parseI32 (get_id r) = none ∨ env.parseBody (request_body r) = none ∨ env.connect = false →
        handle_put_request r env = some (INTERNAL_ERROR, "Internal error")) := by
  constructor
  · constructor
    · intro h
      rcases hi : parseI32 (get_id r) with _ | i <;>
        rcases hb : env.parseBody (request_body r) with _ | u <;>
        rcases hc : env.connect <;>
        simp [handle_put_request, hi, hb, hc] at h
      rcases he : env.execute (updateStmt u i) with _ | n
      · simp [he] at h
      · exact ⟨i, u, n, rfl, rfl, rfl, he⟩
    · rintro ⟨i, u, n, hi, hb, hc, he⟩
      simp [handle_put_request, hi, hb, hc, he]
  · intro h
    rcases h with h | h | h
    · rcases hb : env.parseBody (request_body r) with _ | u <;>
        rcases hc : env.connect <;> simp [handle_put_request, h, hb, hc]
    · rcases hi : parseI32 (get_id r) with _ | i <;>
        rcases hc : env.connect <;> simp [handle_put_request, h, hi, hc]
    · rcases hi : parseI32 (get_id r) with _ | i <;>
        rcases hb : env.parseBody (request_body r) with _ | u <;>
        simp [handle_put_request, h, hi, hb]

/-- Claim C5 amended witness: an update matching zero rows still reports
OK, and an unreachable store yields INTERNAL_ERROR. -/
theorem claim5_update_ok_witness :
    handle_put_request reqPut1 envZeroRows = some (OK_RESPONSE, "User updated")
    ∧ handle_put_request reqPut1 envDown = some (INTERNAL_ERROR, "Internal error") :=
  ⟨(claim5_update_ok reqPut1 envZeroRows).1.mpr ⟨1, userAda, 0, by decide, by decide, rfl, rfl⟩,
   (claim5_update_ok reqPut1 envDown).2 (Or.inr (Or.inr rfl))⟩

/-- Claim C8: two create or update requests whose bodies deserialize to the
same name and email — differing at most in the id field — make the handler
issue the same parameterized statement (which receives only name and email,
never the supplied id) and produce the same response. -/
theorem claim8_id_ignored (r1 r2 : String) (env : Env) (u1 u2 : User)
    (h1 : env.parseBody (request_body r1) = some u1)
    (h2 : env.parseBody (request_body r2) = some u2)
    (hn : u1.name = u2.name) (he : u1.email = u2.email) :
    insertStmt u1 = insertStmt u2
    ∧ handle_post_request r1 env = handle_post_request r2 env
    ∧ (∀ i : Int, updateStmt u1 i = updateStmt u2 i)
    ∧ (parseI32 (get_id r1) = parseI32 (get_id r2) →
        handle_put_request r1 env = handle_put_request r2 env) := by
  have hins : insertStmt u1 = insertStmt u2 := by simp [insertStmt, hn, he]
  have hupd : ∀ i : Int, updateStmt u1 i = updateStmt u2 i := by
    intro i; simp [updateStmt, hn, he]
  refine ⟨hins, ?_, hupd, ?_⟩
  · rcases hc : env.connect <;> simp [handle_post_request, h1, h2, hc, hins]
  · intro hid
    rcases hi : parseI32 (get_id r1) with _ | i
    · rcases hc : env.connect <;>
        simp [handle_put_request, h1, h2, hc, hi, hid.symm.trans hi]
    · rcases hc : env.connect <;>
        simp [handle_put_request, h1, h2, hc, hi, hid.symm.trans hi, hupd i]

/-- Claim C8 witness: the same create request with and without a supplied
id field issues the identical insert statement and response. -/
theorem claim8_id_ignored_witness :
    insertStmt userAda = insertStmt userAda7
    ∧ handle_post_request reqPost1 env0 = handle_post_request reqPost2 env0
    ∧ (∀ i : Int, updateStmt userAda i = updateStmt userAda7 i)
    ∧ (parseI32 (get_id reqPost1) = parseI32 (get_id reqPost2) →
        handle_put_request reqPost1 env0 = handle_put_request reqPost2 env0) :=
  claim8_id_ignored reqPost1 reqPost2 env0 userAda userAda7
    (by decide) (by decide) (by decide) (by decide)

/-- A space-free list that is a prefix of `t` is also a prefix of the part
of `t` before the first space. -/
theorem prefix_takeWhile_of_all {q t : List Char} (hq : ∀ c ∈ q, c ≠ ' ') (h : q <+: t) :
    q <+: t.takeWhile (· ≠ ' ') := by
  induction q generalizing t with
  | nil => simp
  | cons a q ih =>
    rcases h with ⟨s, rfl⟩
    rw [List.cons_append, List.takeWhile_cons_of_pos (by simpa using hq a (by simp))]
    exact (List.cons_prefix_cons).2 ⟨rfl, ih (fun c hc => hq c (by simp [hc])) ⟨s, rfl⟩⟩

/-- Splitting a `method SP path-prefix` pattern: the pattern is a prefix of
the raw line exactly when the first space-delimited token equals the method
and the path-prefix is a prefix of the second space-delimited token. -/
theorem method_path_prefix (m q : List Char) (hm : ∀ c ∈ m, c ≠ ' ')
    (hq : ∀ c ∈ q, c ≠ ' ') (hq0 : q ≠ []) : ∀ l : List Char,
    ((m ++ ' ' :: q) <+: l ↔
      (l.takeWhile (· ≠ ' ') = m ∧
        q <+: ((l.dropWhile (· ≠ ' ')).drop 1).takeWhile (· ≠ ' '))) := by
  induction m with
  | nil =>
    intro l
    cases l with
    | nil =>
      simp only [List.nil_append, List.takeWhile_nil, List.dropWhile_nil, List.drop_nil,
        List.prefix_nil]
      constructor
      · intro h; simp at h
      · rintro ⟨-, h⟩; exact absurd h hq0
    | cons c t =>
      by_cases hc : c = ' '
      · subst hc
        rw [List.nil_append, List.cons_prefix_cons,
          List.takeWhile_cons_of_neg (by simp), List.dropWhile_cons_of_neg (by simp)]
        simp only [List.drop_succ_cons, List.drop_zero, eq_self_iff_true, true_and]
        constructor
        · intro h; exact prefix_takeWhile_of_all hq h
        · intro h; exact h.trans (List.takeWhile_prefix _)
      · rw [List.nil_append, List.cons_prefix_cons,
          List.takeWhile_cons_of_pos (by simpa using hc)]
        constructor
        · rintro ⟨h, -⟩; exact absurd h.symm hc
        · rintro ⟨h, -⟩; exact absurd h (by simp)
  | cons a m ih =>
    have ha : a ≠ ' ' := hm a (by simp)
    have ihm : ∀ c ∈ m, c ≠ ' ' := fun c hc => hm c (by simp [hc])
    intro l
    cases l with
    | nil => simp
    | cons c t =>
      rw [List.cons_append, List.cons_prefix_cons]
      by_cases hc : c = ' '
      · subst hc
        rw [List.takeWhile_cons_of_neg (by simp)]
        constructor
        · rintro ⟨h, -⟩; exact absurd h (fun h2 => ha h2)
        · rintro ⟨h, -⟩; exact absurd h (by simp)
      · rw [List.takeWhile_cons_of_pos (by simpa using hc),
          List.dropWhile_cons_of_pos (by simpa using hc), ih ihm t]
        constructor
        · rintro ⟨rfl, h1, h2⟩; exact ⟨by rw [h1], h2⟩
        · rintro ⟨h1, h2⟩
          have h3 : c = a ∧ List.takeWhile (· ≠ ' ') t = m := by simpa using h1
          exact ⟨h3.1.symm, h3.2, h2⟩

/-- String form of `method_path_prefix`, phrased with the router helpers. -/
theorem rStartsWith_method_split (r m q : String)
    (hm : ∀ c ∈ m.data, c ≠ ' ') (hq : ∀ c ∈ q.data, c ≠ ' ') (hq0 : q.data ≠ []) :
    rStartsWith r (m ++ " " ++ q) = ((reqMethod r == m) && rStartsWith (reqPath r) q) := by
  rw [Bool.eq_iff_iff]
  simp only [rStartsWith, Bool.and_eq_true, beq_iff_eq, List.isPrefixOf_iff_prefix]
  have hdata : (m ++ " " ++ q).data = m.data ++ ' ' :: q.data := by
    simp [String.data_append]
  rw [hdata, method_path_prefix m.data q.data hm hq hq0 r.data]
  constructor
  · rintro ⟨h1, h2⟩
    exact ⟨by rw [String.ext_iff]; exact h1, h2⟩
  · rintro ⟨h1, h2⟩
    exact ⟨by rw [String.ext_iff] at h1; exact h1, h2⟩

/-- Routing test 1 in method and path form. -/
theorem cond_create (r : String) :
    rStartsWith r "POST /users" = ((reqMethod r == "POST") && rStartsWith (reqPath r) "/users") := by
  have h := rStartsWith_method_split r "POST" "/users" (by decide) (by decide) (by decide)
  rw [show ("POST" ++ " " ++ "/users" : String) = "POST /users" from rfl] at h
  exact h

/-- Routing test 2 in method and path form. -/
theorem cond_read_one (r : String) :
    rStartsWith r "GET /users/" = ((reqMethod r == "GET") && rStartsWith (reqPath r) "/users/") := by
  have h := rStartsWith_method_split r "GET" "/users/" (by decide) (by decide) (by decide)
  rw [show ("GET" ++ " " ++ "/users/" : String) = "GET /users/" from rfl] at h
  exact h

/-- Routing test 3 in method and path form. -/
theorem cond_read_all (r : String) :
    rStartsWith r "GET /users" = ((reqMethod r == "GET") && rStartsWith (reqPath r) "/users") := by
  have h := rStartsWith_method_split r "GET" "/users" (by decide) (by decide) (by decide)
  rw [show ("GET" ++ " " ++ "/users" : String) = "GET /users" from rfl] at h
  exact h

/-- Routing test 4 in method and path form. -/
theorem cond_update (r : String) :
    rStartsWith r "PUT /users/" = ((reqMethod r == "PUT") && rStartsWith (reqPath r) "/users/") := by
  have h := rStartsWith_method_split r "PUT" "/users/" (by decide) (by decide) (by decide)
  rw [show ("PUT" ++ " " ++ "/users/" : String) = "PUT /users/" from rfl] at h
  exact h

/-- Routing test 5 in method and path form. -/
theorem cond_delete (r : String) :
    rStartsWith r "DELETE /users/" = ((reqMethod r == "DELETE") && rStartsWith (reqPath r) "/users/") := by
  have h := rStartsWith_method_split r "DELETE" "/users/" (by decide) (by decide) (by decide)
  rw [show ("DELETE" ++ " " ++ "/users/" : String) = "DELETE /users/" from rfl] at h
  exact h

/-- Claim C1: the response of `handle_client` is computed by classifying
the request with the ordered first-match-wins method and path-prefix rules
of the specification, dispatching to the matching handler, and answering
the NOT_FOUND pair when no rule matches. -/
theorem claim1_router_dispatch (r : String) (env : Env) :
    handle_client_response r env =
      (match routeSpec (reqMethod r) (reqPath r) with
       | Route.create => handle_post_request r env
       | Route.readOne => handle_get_request r env
       | Route.readAll => handle_get_all_request r env
       | Route.update => handle_put_request r env
       | Route.delete => handle_delete_request r env
       | Route.unknown => some (NOT_FOUND, "404 not found")) := by
  unfold handle_client_response routeSpec
  rw [cond_create r, cond_read_one r, cond_read_all r, cond_update r, cond_delete r]
  cases h1 : (reqMethod r == "POST") && rStartsWith (reqPath r) "/users" <;>
  cases h2 : (reqMethod r == "GET") && rStartsWith (reqPath r) "/users/" <;>
  cases h3 : (reqMethod r == "GET") && rStartsWith (reqPath r) "/users" <;>
  cases h4 : (reqMethod r == "PUT") && rStartsWith (reqPath r) "/users/" <;>
  cases h5 : (reqMethod r == "DELETE") && rStartsWith (reqPath r) "/users/" <;>
  simp

/-- The blank-line split of a character list is never the empty list. -/
theorem splitBlank_ne_nil (l : List Char) : splitBlank l ≠ [] := by
  induction l using splitBlank.induct with
  | case1 t ih => rw [splitBlank.eq_1]; simp
  | case2 c t hns hnil ih => exact absurd hnil ih
  | case3 c t hns p ps hps ih => rw [splitBlank.eq_2 c t hns, hps]; simp
  | case4 => rw [splitBlank.eq_3]; simp

/-- A separator-free character list splits into the single piece itself. -/
theorem splitBlank_eq_single (l : List Char) (h : hasBlankSep l = false) :
    splitBlank l = [l] := by
  induction l using splitBlank.induct with
  | case1 t ih => rw [hasBlankSep.eq_1] at h; exact absurd h (by simp)
  | case2 c t hns hnil ih => exact absurd hnil (splitBlank_ne_nil t)
  | case3 c t hns p ps hps ih =>
    rw [hasBlankSep.eq_2 c t hns] at h
    have h2 := ih h
    rw [hps] at h2
    have h3 : p = t ∧ ps = [] := by simpa using h2
    rw [splitBlank.eq_2 c t hns, hps, h3.1, h3.2]
  | case4 => rw [splitBlank.eq_3]

/-- A character list containing the separator splits into two or more pieces. -/
theorem two_le_length_splitBlank (l : List Char) (h : hasBlankSep l = true) :
    2 ≤ (splitBlank l).length := by
  induction l using splitBlank.induct with
  | case1 t ih =>
    rw [splitBlank.eq_1]
    have h1 : 0 < (splitBlank t).length := List.length_pos.2 (splitBlank_ne_nil t)
    simpa using h1
  | case2 c t hns hnil ih => exact absurd hnil (splitBlank_ne_nil t)
  | case3 c t hns p ps hps ih =>
    rw [hasBlankSep.eq_2 c t hns] at h
    have h1 := ih h
    rw [hps] at h1
    rw [splitBlank.eq_2 c t hns, hps]
    simpa using h1
  | case4 => simp [hasBlankSep] at h

/-- When the separator occurs, the last split piece is exactly the suffix
after the last separator occurrence: the list decomposes as some prefix,
one separator, then the last piece, and the last piece is separator-free. -/
theorem splitBlank_last_after (l : List Char) (h : hasBlankSep l = true) :
    ∃ p : List Char,
      l = p ++ '\r' :: '\n' :: '\r' :: '\n' :: ((splitBlank l).getLastD [])
      ∧ hasBlankSep ((splitBlank l).getLastD []) = false := by
  induction l using splitBlank.induct with
  | case1 t ih =>
    rw [splitBlank.eq_1, List.getLastD_cons]
    by_cases ht : hasBlankSep t = true
    · obtain ⟨p, hp, hno⟩ := ih ht
      refine ⟨'\r' :: '\n' :: '\r' :: '\n' :: p, ?_, hno⟩
      simp only [List.cons_append]
      rw [← hp]
    · have ht2 : hasBlankSep t = false := by simpa using ht
      rw [splitBlank_eq_single t ht2]
      exact ⟨[], by simp, by simpa using ht2⟩
  | case2 c t hns hnil ih => exact absurd hnil (splitBlank_ne_nil t)
  | case3 c t hns p ps hps ih =>
    rw [hasBlankSep.eq_2 c t hns] at h
    have hlen := two_le_length_splitBlank t h
    rw [hps] at hlen
    have hpsne : ps ≠ [] := by
      intro hcontra
      rw [hcontra] at hlen
      simp at hlen
    obtain ⟨p2, hp2, hno⟩ := ih h
    rw [splitBlank.eq_2 c t hns, hps]
    rcases ps with _ | ⟨x, xs⟩
    · exact absurd rfl hpsne
    · simp only [List.getLastD_cons]
      simp only [hps, List.getLastD_cons] at hp2 hno
      refine ⟨c :: p2, ?_, hno⟩
      simp only [List.cons_append]
      rw [← hp2]
  | case4 => simp [hasBlankSep] at h

/-- Claim C6 counterexample: with no blank-line separator the extracted
body is the whole buffer, not empty text; with two separators it is the
text after the last one, not everything after the first one. -/
theorem claim6_counterexample :
    request_body "hi" = "hi"
    ∧ ("hi" : String) ≠ ""
    ∧ request_body "a\r\n\r\nb\r\n\r\nc" = "c"
    ∧ ("c" : String) ≠ "b\r\n\r\nc" := by
  decide

/-- Claim C6 amended: the extracted body is everything following the last
blank-line separator in the buffer (the buffer decomposes as a prefix, one
separator, then the body, which holds no further separator), and it equals
the entire buffer when no blank-line separator exists. -/
theorem claim6_body_extraction (r : String) :
    (hasBlankSep r.data = false → request_body r = r)
    ∧ (hasBlankSep r.data = true →
        ∃ p : List Char,
          r.data = p ++ '\r' :: '\n' :: '\r' :: '\n' :: (request_body r).data
          ∧ hasBlankSep (request_body r).data = false) := by
  constructor
  · intro h
    rw [String.ext_iff]
    show (splitBlank r.data).getLastD [] = r.data
    rw [splitBlank_eq_single r.data h, List.getLastD_cons]
    rfl
  · intro h
    exact splitBlank_last_after r.data h

/-- Claim C6 amended witness: a separator-free buffer is its own body; a
buffer with a separator decomposes around its last separator. -/
theorem claim6_body_extraction_witness :
    request_body "hi" = "hi"
    ∧ ∃ p : List Char,
        ("a\r\n\r\nb" : String).data =
          p ++ '\r' :: '\n' :: '\r' :: '\n' :: (request_body "a\r\n\r\nb").data
        ∧ hasBlankSep (request_body "a\r\n\r\nb").data = false :=
  ⟨(claim6_body_extraction "hi").1 (by decide),
   (claim6_body_extraction "a\r\n\r\nb").2 (by decide)⟩

/-- Claim C7 counterexample: a zero-byte read is `Ok(0)`, the request text
becomes empty, no route matches, and the NOT_FOUND response is written —
a response is produced, contrary to the claim. -/
theorem claim7_counterexample :
    handle_client (ReadResult.ok "") WriteResult.ok env0
      = ClientOutcome.wrote (NOT_FOUND, "404 not found")
    ∧ ClientOutcome.wrote (NOT_FOUND, "404 not found") ≠ ClientOutcome.noResponse := by
  decide

/-- Claim C7 amended: a read error produces no response and the connection
is abandoned; a zero-byte read, however, is treated as an empty request,
matches no route, and has the NOT_FOUND response written back. -/
theorem claim7_read_outcome (wr : WriteResult) (env : Env) :
    handle_client ReadResult.err wr env = ClientOutcome.noResponse
    ∧ handle_client (ReadResult.ok "") WriteResult.ok env
        = ClientOutcome.wrote (NOT_FOUND, "404 not found") := by
  exact ⟨rfl, rfl⟩

/-- Claim C9 counterexample: when the write back to the client fails, the
outcome is a panic (the `unwrap()` on `write_all` aborts the server), not a
logged-and-dropped connection with the server continuing. -/
theorem claim9_counterexample :
    handle_client (ReadResult.ok "GET /unknown") WriteResult.err env0 = ClientOutcome.panicked
    ∧ ClientOutcome.panicked ≠ ClientOutcome.wrote (NOT_FOUND, "404 not found")
    ∧ ClientOutcome.panicked ≠ ClientOutcome.noResponse := by
  decide

/-- Claim C9 amended: whenever the routed handler produced a response pair
and the write back to the client fails, the `unwrap()` on `write_all`
panics, aborting the server process; the write is not retried and there is
no logged-and-continue path. -/
theorem claim9_write_failure (data : String) (env : Env) (resp : String × String)
    (h : handle_client_response data env = some resp) :
    handle_client (ReadResult.ok data) WriteResult.err env = ClientOutcome.panicked := by
  simp [handle_client, h]

/-- Claim C9 amended witness: a concrete unroutable request whose 404
response fails to write. -/
theorem claim9_write_failure_witness :
    handle_client (ReadResult.ok "HEAD /users HTTP/1.1") WriteResult.err env0
      = ClientOutcome.panicked :=
  claim9_write_failure "HEAD /users HTTP/1.1" env0 (NOT_FOUND, "404 not found") (by decide)

/-- Claim C10: the identifier extraction is a total function, and whenever
the request has fewer than three slash-separated pieces, or its third piece
is empty or all whitespace, it returns the empty string, which then fails
integer parsing in the single-resource handlers. -/
theorem claim10_get_id_empty (s : String)
    (h : (splitSlash s.data).length < 3
      ∨ ∀ c ∈ (splitSlash s.data).getD 2 [], c.isWhitespace = true) :
    get_id s = "" ∧ parseI32 (get_id s) = none := by
  have hid : get_id s = "" := by
    rcases h with h | h
    · have h2 : (splitSlash s.data).getD 2 [] = [] :=
        List.getD_eq_default _ _ (Nat.le_of_lt_succ (by simpa using h))
      rw [get_id, h2]
      rfl
    · rw [get_id]
      apply String.ext
      show firstWordL ((splitSlash s.data).getD 2 []) = ("" : String).data
      rw [firstWordL, List.dropWhile_eq_nil_iff.2 h]
      rfl
  refine ⟨hid, ?_⟩
  rw [hid]
  decide

/-- Claim C10 witness: a request with a single slash-free piece yields the
empty identifier, which fails integer parsing. -/
theorem claim10_get_id_empty_witness :
    get_id "hello" = "" ∧ parseI32 (get_id "hello") = none :=
  claim10_get_id_empty "hello" (Or.inl (by decide))
